import Mathlib

/- Verification of the Meraki provisioning scripts against their
natural-language specification.  Each Python source function that a claim
consults is embedded as an executable Lean definition; remote HTTP / AWS
interactions are represented by explicit environments (one response per
issued call) and by traces of the calls a run would issue. -/

set_option maxRecDepth 2048

/-- One Meraki dashboard API call, identified by endpoint and the payload
fields the claims consult. -/
inductive ApiCall where
  /-- POST /organizations/:orgId/networks -/
  | createNetwork (orgId : String)
  /-- POST /organizations/:orgId/claim with a serial batch and a network id -/
  | claimDevices (orgId : String) (networkId : Option String) (serials : List String)
  /-- POST /networks/:networkId/devices/claim -/
  | claimIntoNetwork (networkId : String) (serials : List String)
  /-- POST /networks/:networkId/devices/:serial/remove (un-claim / detach) -/
  | removeDevice (networkId : String) (serial : String)
  /-- GET /networks/:networkId/devices -/
  | getDevices (networkId : String)
  /-- GET /networks/:networkId/devices/statuses -/
  | getDeviceStatuses (networkId : String)
  /-- POST /networks/:networkId/bind -/
  | bindTemplate (networkId : String)
  /-- GET /organizations/:orgId/inventory -/
  | getInventory (orgId : String)
  /-- GET /organizations/:orgId/networks -/
  | getNetworks (orgId : String)
  /-- POST /networks/:networkId/appliance/vmx/authenticationToken -/
  | postVmxAuthToken (networkId : String)
  deriving DecidableEq, Repr

namespace July

/- Embedding of src/meraki_network24JULY.py (class MerakiNetworkManager).
The verify_devices method of src/workinglocal/meraki_network.py is
line-for-line identical to the one embedded here. -/

/-- One record of the GET devices response consulted by verify_devices. -/
structure DeviceRec where
  serial : String
  model : String
  deriving DecidableEq, Repr

/-- One record of the GET device-statuses response. `status` and
`lastReportedAt` are optional fields (dict.get returns None when absent). -/
structure StatusRec where
  serial : String
  status : Option String
  lastReportedAt : Option String
  deriving DecidableEq, Repr

/-- A device record after verify_devices annotates it with its matching
status entry (connectionStatus / lastReportedAt). -/
structure AnnotDevice where
  serial : String
  model : String
  connectionStatus : Option String
  lastReportedAt : Option String
  deriving DecidableEq, Repr

/-- Outcome of one polling attempt of verify_devices: either a
requests-level exception was raised, or both GET calls returned, with the
two HTTP status codes and the two JSON payloads. -/
inductive PollStep where
  | exn
  | ok (statusCode_statuses : Nat) (statusCode_devices : Nat)
      (statuses : List StatusRec) (devices : List DeviceRec)
  deriving Repr

/-- Annotate one device with the first status record of the same serial,
mirroring `next((s for s in device_statuses if s['serial'] == device['serial']), \x7b\x7d)`
followed by `.get('status')` / `.get('lastReportedAt')`. -/
def annotate (statuses : List StatusRec) (d : DeviceRec) : AnnotDevice :=
  match statuses.find? (fun s => s.serial == d.serial) with
  | some s => { serial := d.serial, model := d.model,
                connectionStatus := s.status, lastReportedAt := s.lastReportedAt }
  | none => { serial := d.serial, model := d.model,
              connectionStatus := none, lastReportedAt := none }

/-- The matched subset one attempt of verify_devices computes: devices of
the device-list response whose serial is among the requested serials, each
annotated from the statuses response, in device-list order. -/
def matchedDevices (serials : List String) (statuses : List StatusRec)
    (devices : List DeviceRec) : List AnnotDevice :=
  (devices.filter (fun d => serials.contains d.serial)).map (annotate statuses)

/-- Observable outcome of a verify_devices run: the returned value, the
number of polling attempts actually performed (pairs of GET calls issued),
the sleeps executed in order (seconds), and the trace of API calls of the
attempts that completed both GETs. -/
structure VerifyOut where
  result : Option (List AnnotDevice)
  polls : Nat
  sleeps : List Nat
  calls : List ApiCall
  deriving Repr

/-- The while-loop of verify_devices (max_attempts = 4).  `env i` is the
outcome of the polling attempt made with attempt counter `i`.  Each
iteration issues the statuses GET then the devices GET; on two 200s the
matched subset is returned if non-empty, otherwise the counter is
incremented after a 60 s sleep; on any non-200 the function returns None
immediately; on a requests exception the counter is incremented after a
30 s sleep.  After 4 counted attempts the function returns None. -/
def verifyLoop (networkId : String) (serials : List String)
    (env : Nat → PollStep) (attempt : Nat) : VerifyOut :=
  if _h : attempt < 4 then
    match env attempt with
    | .exn =>
        let r := verifyLoop networkId serials env (attempt + 1)
        { result := r.result, polls := r.polls + 1,
          sleeps := 30 :: r.sleeps, calls := r.calls }
    | .ok scS scD statuses devices =>
        if scS == 200 && scD == 200 then
          let matched := matchedDevices serials statuses devices
          if matched.isEmpty then
            let r := verifyLoop networkId serials env (attempt + 1)
            { result := r.result, polls := r.polls + 1,
              sleeps := 60 :: r.sleeps,
              calls := .getDeviceStatuses networkId :: .getDevices networkId :: r.calls }
          else
            { result := some matched, polls := 1, sleeps := [],
              calls := [.getDeviceStatuses networkId, .getDevices networkId] }
        else
          { result := none, polls := 1, sleeps := [],
            calls := [.getDeviceStatuses networkId, .getDevices networkId] }
  else
    { result := none, polls := 0, sleeps := [], calls := [] }
termination_by 4 - attempt
decreasing_by omega

/-- MerakiNetworkManager.verify_devices: run the polling loop with the
attempt counter starting at 0. -/
def verifyDevices (networkId : String) (serials : List String)
    (env : Nat → PollStep) : VerifyOut :=
  verifyLoop networkId serials env 0

/-- The batch slicing of add_devices_to_network:
`for i in range(0, len(device_serials), batch_size)` with batch_size 10 and
`batch = device_serials[i:i + batch_size]`. -/
def chunks10 (l : List String) : List (List String) :=
  if _h : l = [] then []
  else l.take 10 :: chunks10 (l.drop 10)
termination_by l.length
decreasing_by
  have hl : 0 < l.length := List.length_pos.mpr _h
  simp only [List.length_drop]
  omega

/-- The claim loop of add_devices_to_network: one POST claim per batch, in
batch order; a batch is appended to claimed_devices exactly when its claim
response status is 200, and the loop continues after a failed batch.
`resp j` is the HTTP status of the j-th claim call.  Returns the list of
posted batches and the accumulated claimed serials. -/
def claimLoop (resp : Nat → Nat) (i : Nat) (l : List String) :
    List (List String) × List String :=
  if _h : l = [] then ([], [])
  else
    let b := l.take 10
    let r := claimLoop resp (i + 1) (l.drop 10)
    (b :: r.1, (if resp i == 200 then b else []) ++ r.2)
termination_by l.length
decreasing_by
  have hl : 0 < l.length := List.length_pos.mpr _h
  simp only [List.length_drop]
  omega

/-- One record of the GET /organizations/:orgId/inventory response.
`networkId` is `none` when the field is absent or empty (Python falsy). -/
structure InvDevice where
  serial : String
  model : String
  networkId : Option String
  deriving DecidableEq, Repr

/-- Remote responses consumed by one run of MerakiNetworkManager.deploy of
meraki_network24JULY.py: one response per call site, plus the indexed
response families for the claim batches and the polling attempts. -/
structure JulyEnv where
  createStatus : Nat
  createdNetworkId : String
  bindStatus : Nat
  invStatus : Nat
  inventory : List InvDevice
  claimResp : Nat → Nat
  poll : Nat → PollStep

/-- MerakiNetworkManager.get_organization_inventory: one GET; on 200 the
available devices are those whose networkId is falsy; any other status
yields the empty list. -/
def getOrganizationInventory (orgId : String) (env : JulyEnv) :
    List InvDevice × List ApiCall :=
  (if env.invStatus == 200 then env.inventory.filter (fun d => d.networkId == none) else [],
   [.getInventory orgId])

/-- MerakiNetworkManager.add_devices_to_network: when `device_serials` is
falsy (None or empty), the serial list is taken from the organization
inventory, and an empty result returns None; otherwise the provided list is
claimed in batches of 10 and, when at least one batch succeeded, the
claimed serials are verified by polling. -/
def addDevicesToNetwork (orgId networkId : String)
    (deviceSerials : Option (List String)) (env : JulyEnv) :
    Option (List AnnotDevice) × List ApiCall :=
  let inv := getOrganizationInventory orgId env
  let fromInv : List String × List ApiCall := (inv.1.map (fun d => d.serial), inv.2)
  let chosen : List String × List ApiCall :=
    match deviceSerials with
    | some ds => if ds = [] then fromInv else (ds, [])
    | none => fromInv
  if chosen.1 = [] then (none, chosen.2)
  else
    let cl := claimLoop env.claimResp 0 chosen.1
    let claimCalls := cl.1.map (fun b => ApiCall.claimDevices orgId (some networkId) b)
    if cl.2 = [] then (none, chosen.2 ++ claimCalls)
    else
      let v := verifyDevices networkId cl.2 env.poll
      (v.result, chosen.2 ++ claimCalls ++ v.calls)

/-- MerakiNetworkManager.create_network: one POST; the network id is
recorded exactly when the response status is 201. -/
def createNetwork (orgId : String) (env : JulyEnv) : Option String × List ApiCall :=
  (if env.createStatus == 201 then some env.createdNetworkId else none,
   [.createNetwork orgId])

/-- MerakiNetworkManager.bind_template: one POST bind; true exactly on
status 200; the deploy flow continues either way. -/
def bindTemplate (networkId : String) (env : JulyEnv) : Bool × List ApiCall :=
  (env.bindStatus == 200, [.bindTemplate networkId])

/-- MerakiNetworkManager.deploy of meraki_network24JULY.py.  The first
component is the set of keys of the returned deployment_results dict
(None on failure); an empty key list models an empty dict, which is falsy
for the caller. -/
def deployJuly (orgId : String) (cfgNetworkId : Option String)
    (deviceSerials : Option (List String)) (env : JulyEnv) :
    Option (List String) × List ApiCall :=
  match cfgNetworkId with
  | none =>
    let created := createNetwork orgId env
    match created.1 with
    | none => (none, created.2)
    | some nid =>
      let bound := bindTemplate nid env
      let added := addDevicesToNetwork orgId nid deviceSerials env
      (some ("network" :: (if added.1.isSome then ["devices"] else [])),
       created.2 ++ bound.2 ++ added.2)
  | some nid =>
    let bound := bindTemplate nid env
    let added := addDevicesToNetwork orgId nid deviceSerials env
    (some (if added.1.isSome then ["devices"] else []), bound.2 ++ added.2)

/-- The required configuration fields validated by main of
meraki_network24JULY.py. -/
def requiredFieldsJuly : List String := ["meraki_api_key", "organization_id"]

/-- main of meraki_network24JULY.py after the config file is parsed: the
required-field loop exits with code 1 on the first missing field, before
the manager is built; otherwise deploy runs and the exit code reflects the
truthiness of its result.  Returns (exit code, issued API calls). -/
def mainJuly (cfgFields : List String) (orgId : String)
    (cfgNetworkId : Option String) (deviceSerials : Option (List String))
    (env : JulyEnv) : Nat × List ApiCall :=
  match requiredFieldsJuly.find? (fun f => !(cfgFields.contains f)) with
  | some _ => (1, [])
  | none =>
    let run := deployJuly orgId cfgNetworkId deviceSerials env
    (match run.1 with
     | some keys => if keys = [] then 1 else 0
     | none => 1, run.2)

end July

namespace WL

/- Embedding of src/workinglocal/meraki_network.py (class
MerakiNetworkManager).  Its deploy flow differs from the 24JULY variant:
it checks the organization inventory before adding devices, and its device
claiming method is named add_devices. -/

/-- One inventory record; the optional fields are none when absent or
falsy in the JSON payload. -/
structure InvDevice where
  serial : Option String
  model : String
  networkId : Option String
  orderNumber : Option String
  deriving DecidableEq, Repr

/-- One organization network of GET /organizations/:orgId/networks. -/
structure OrgNetwork where
  id : String
  name : String
  deriving DecidableEq, Repr

/-- Outcome of one attempt of get_organization_inventory: a requests
exception, or the inventory GET status and payload together with the
networks GET status and payload. -/
inductive InvAttempt where
  | exn
  | resp (invStatus : Nat) (inventory : List InvDevice)
      (netStatus : Nat) (networks : List OrgNetwork)

/-- The availability filter of get_organization_inventory: devices whose
networkId is falsy or not among the organization network ids, with a
truthy serial and a truthy orderNumber. -/
def filterAvailable (inventory : List InvDevice) (networks : List OrgNetwork) :
    List InvDevice :=
  let networkIds := networks.map (fun n => n.id)
  inventory.filter (fun d =>
    (match d.networkId with
     | none => true
     | some x => !(networkIds.contains x)) && d.serial.isSome && d.orderNumber.isSome)

/-- The retry loop of get_organization_inventory (max_retries = 3): each
attempt fetches the inventory and the networks; when both return 200 a
non-empty filtered availability list is returned at once; otherwise the
loop retries and finally returns the last list computed (empty when no
attempt produced devices). -/
def invLoop (env : Nat → InvAttempt) : Nat → Nat → List InvDevice → List InvDevice
  | _, 0, acc => acc
  | attempt, fuel + 1, acc =>
    match env attempt with
    | .exn => invLoop env (attempt + 1) fuel acc
    | .resp invStatus inventory netStatus networks =>
      if invStatus == 200 then
        if netStatus == 200 then
          let avail := filterAvailable inventory networks
          if avail.isEmpty then invLoop env (attempt + 1) fuel avail
          else avail
        else invLoop env (attempt + 1) fuel acc
      else invLoop env (attempt + 1) fuel acc

/-- MerakiNetworkManager.get_organization_inventory: the retry loop over
`range(max_retries)` with max_retries 3, starting at attempt 0 with the
empty accumulator initialized before the loop. -/
def getOrganizationInventory (env : Nat → InvAttempt) : List InvDevice :=
  invLoop env 0 3 []

/-- Remote responses consumed by one run of the workinglocal deploy. -/
structure WLEnv where
  createStatus : Nat
  createdNetworkId : String
  bindOk : Bool
  inv : Nat → InvAttempt

/-- The workinglocal create_network: the network id is recorded exactly
when the response status is 201. -/
def createNetworkWL (env : WLEnv) : Option String :=
  if env.createStatus == 201 then some env.createdNetworkId else none

/-- A Python exception value distinguished by the workinglocal deploy. -/
inductive PyExc where
  | attributeError (msg : String)
  deriving DecidableEq, Repr

/-- Step 4 of the workinglocal deploy evaluates
self.add_devices_to_network, but the workinglocal MerakiNetworkManager
defines no attribute of that name (its claiming method is add_devices), so
the attribute lookup raises AttributeError before any call is made. -/
def addDevicesToNetworkCall : Except PyExc (List July.AnnotDevice) :=
  .error (.attributeError
    "MerakiNetworkManager object has no attribute add_devices_to_network")

/-- MerakiNetworkManager.deploy of the workinglocal variant.  Returns the
keys of deployment_results on a normal return and none when the blanket
exception handler reports failure.  The bind_template outcome (step 2)
does not alter the control flow.  Any run that reaches step 4 hits the
AttributeError of addDevicesToNetworkCall, which the blanket handler turns
into None. -/
def deployWL (cfgNetworkId : Option String) (env : WLEnv) : Option (List String) :=
  let start : Option (List String) :=
    match cfgNetworkId with
    | some _ => some []
    | none =>
      match createNetworkWL env with
      | some _ => some ["network"]
      | none => none
  match start with
  | none => none
  | some keys =>
    let available := getOrganizationInventory env.inv
    if available.isEmpty then some keys
    else
      match addDevicesToNetworkCall with
      | .ok _devices => some (keys ++ ["devices"])
      | .error _ => none

end WL

/-- ASCII lowercasing of one character, as Python str.lower acts on the
ASCII network and device names these scripts handle. -/
def charLower (c : Char) : Char :=
  if c.toNat ≥ 65 ∧ c.toNat ≤ 90 then Char.ofNat (c.toNat + 32) else c

/-- Python str.lower restricted to ASCII text. -/
def pyLower (s : String) : String := String.mk (s.data.map charLower)

/-- Python str.startswith. -/
def pyStartsWith (s p : String) : Bool := p.data.isPrefixOf s.data

namespace DeviceMove

/- Embedding of src/workinglocal/device_move.py (class DeviceMover). -/

/-- One organization network record of GET /organizations/:orgId/networks. -/
structure NetworkInfo where
  name : String
  id : String
  deriving DecidableEq, Repr

/-- The match predicate of the single `next(...)` generator of
get_target_network_id: the case-insensitive exact name comparison is
combined by disjunction with the fixed name-start test, inside one pass
over the network list. -/
def looseMatch (target : String) (n : NetworkInfo) : Bool :=
  pyLower n.name == pyLower target || pyStartsWith (pyLower n.name) "meraki-network"

/-- DeviceMover.get_target_network_id on a 200 networks response: the id
of the first network satisfying looseMatch, else None. -/
def getTargetNetworkId (target : String) (networks : List NetworkInfo) :
    Option String :=
  (networks.find? (looseMatch target)).map (fun n => n.id)

/-- The device record fields move_device consults. -/
structure DeviceInfo where
  serial : String
  networkId : Option String
  deriving DecidableEq, Repr

/-- DeviceMover.move_device: when the device has a current network, a
remove POST is issued against that network and its response is discarded
without inspection; the claim POST against the target network follows, and
the returned success is exactly the claim status being 200 or 201.
`removeStatus` is the HTTP status of the remove response when one is
issued; the source never reads it. -/
def moveDevice (device : DeviceInfo) (targetNetworkId : String)
    (removeStatus : Nat) (claimStatus : Nat) : Bool × List ApiCall :=
  let _ := removeStatus
  let detachCalls : List ApiCall :=
    match device.networkId with
    | some nid => [.removeDevice nid device.serial]
    | none => []
  ((claimStatus == 200 || claimStatus == 201),
   detachCalls ++ [.claimIntoNetwork targetNetworkId [device.serial]])

end DeviceMove

/-- An EC2 ingress permission as passed to
authorize_security_group_ingress: protocol string, CIDR ranges, and the
optional FromPort/ToPort pair. -/
structure IpPermission where
  ipProtocol : String
  ipRanges : List String
  fromPort : Option Int
  toPort : Option Int
  deriving DecidableEq, Repr

/-- Canonical reading of one ingress permission.  In the EC2 API an ICMP
permission with ports FromPort -1, ToPort -1 and one with the ports omitted both denote all
ICMP types, and a raw-protocol permission ("50", "51") carries no ports. -/
inductive RuleKey where
  | tcpPort (port : Int)
  | udpPort (port : Int)
  | icmpAll
  | rawProto (protocol : String)
  | other
  deriving DecidableEq, Repr

/-- Map one issued permission to its canonical reading. -/
def keyOf (p : IpPermission) : RuleKey :=
  match p.ipProtocol, p.fromPort with
  | "tcp", some n => .tcpPort n
  | "udp", some n => .udpPort n
  | "icmp", _ => .icmpAll
  | "50", _ => .rawProto "50"
  | "51", _ => .rawProto "51"
  | _, _ => .other

/-- Modelled from the spec: the required appliance ingress rule set — TCP
22, TCP 443, UDP 500, UDP 4500, ICMP all types, IP protocol 50 and IP
protocol 51.  This definition follows the specification's words and is the
comparison set for the rule lists of the two provisioners. -/
def requiredRuleKeys : List RuleKey :=
  [.tcpPort 22, .tcpPort 443, .udpPort 500, .udpPort 4500, .icmpAll,
   .rawProto "50", .rawProto "51"]

namespace Vmx

/- Embedding of create_security_group of src/deploy_meraki_vmx.py. -/

/-- One entry of the `rules` list of create_security_group. -/
structure SgRule where
  ipProtocol : String
  fromPort : Option Int
  toPort : Option Int
  cidrIp : String
  deriving DecidableEq, Repr

/-- The rules list of create_security_group, in source order. -/
def rules : List SgRule :=
  [ { ipProtocol := "tcp", fromPort := some 22, toPort := some 22, cidrIp := "0.0.0.0/0" },
    { ipProtocol := "tcp", fromPort := some 443, toPort := some 443, cidrIp := "0.0.0.0/0" },
    { ipProtocol := "udp", fromPort := some 500, toPort := some 500, cidrIp := "0.0.0.0/0" },
    { ipProtocol := "udp", fromPort := some 4500, toPort := some 4500, cidrIp := "0.0.0.0/0" },
    { ipProtocol := "icmp", fromPort := some (-1), toPort := some (-1), cidrIp := "0.0.0.0/0" },
    { ipProtocol := "50", fromPort := none, toPort := none, cidrIp := "0.0.0.0/0" },
    { ipProtocol := "51", fromPort := none, toPort := none, cidrIp := "0.0.0.0/0" } ]

/-- The permission built for one rule: IpRanges always carries the rule's
CidrIp; FromPort and ToPort are copied exactly when the rule has a
FromPort key. -/
def toPerm (r : SgRule) : IpPermission :=
  { ipProtocol := r.ipProtocol, ipRanges := [r.cidrIp],
    fromPort := r.fromPort,
    toPort := if r.fromPort.isSome then r.toPort else none }

/-- The ingress permissions create_security_group authorizes, one
authorize call per rule in list order (a per-rule failure is caught and
the loop continues, so the issued sequence is one permission per rule). -/
def ingressPerms (l : List SgRule) : List IpPermission := l.map toPerm

end Vmx

/-- A cloud-infrastructure API call of the scrypt.py / deploy_meraki_vmx
deployers. -/
inductive AwsCall where
  | createVpc
  | waitVpcAvailable
  | modifyVpcAttribute
  | createInternetGateway
  | attachInternetGateway
  | createSubnet
  | createRouteTable
  | createRoute
  | associateRouteTable
  | createSecurityGroup
  | authorizeIngress (perm : IpPermission)
  | describeImages
  | iamSetup
  | runInstances
  | waitInstanceRunning
  | describeInstances
  | terminateInstances (instanceId : String)
  | ssmPutParameter
  deriving DecidableEq, Repr

/-- A remote call of either control plane. -/
inductive RemoteCall where
  | meraki (c : ApiCall)
  | aws (c : AwsCall)
  deriving DecidableEq, Repr

namespace Scrypt

/- Embedding of src/scrypt.py (class MerakiVMXDeployer). -/

/-- One entry of the security_rules list of configure_vmx_security_group. -/
structure SgRuleS where
  ipProtocol : String
  fromPort : Option Int
  toPort : Option Int
  cidrIp : String
  description : String
  deriving DecidableEq, Repr

/-- The security_rules list of configure_vmx_security_group, in source
order. -/
def securityRules : List SgRuleS :=
  [ { ipProtocol := "tcp", fromPort := some 22, toPort := some 22,
      cidrIp := "0.0.0.0/0", description := "SSH access" },
    { ipProtocol := "tcp", fromPort := some 443, toPort := some 443,
      cidrIp := "0.0.0.0/0", description := "HTTPS management" },
    { ipProtocol := "50", fromPort := none, toPort := none,
      cidrIp := "0.0.0.0/0", description := "IPsec ESP" },
    { ipProtocol := "51", fromPort := none, toPort := none,
      cidrIp := "0.0.0.0/0", description := "IPsec AH" },
    { ipProtocol := "udp", fromPort := some 500, toPort := some 500,
      cidrIp := "0.0.0.0/0", description := "IKE" },
    { ipProtocol := "udp", fromPort := some 4500, toPort := some 4500,
      cidrIp := "0.0.0.0/0", description := "IPsec NAT-T" },
    { ipProtocol := "icmp", fromPort := some (-1), toPort := some (-1),
      cidrIp := "0.0.0.0/0", description := "ICMP" } ]

/-- The permission built for one rule inside the authorize loop: the ports
are omitted when the protocol is icmp, "50" or "51", and copied from the
rule otherwise. -/
def toPermS (r : SgRuleS) : IpPermission :=
  if r.ipProtocol == "icmp" || r.ipProtocol == "50" || r.ipProtocol == "51" then
    { ipProtocol := r.ipProtocol, ipRanges := [r.cidrIp], fromPort := none, toPort := none }
  else
    { ipProtocol := r.ipProtocol, ipRanges := [r.cidrIp],
      fromPort := r.fromPort, toPort := r.toPort }

/-- The ingress permissions configure_vmx_security_group authorizes for a
given rule list, one authorize call per rule in list order when no call
raises. -/
def ingressPermsS (l : List SgRuleS) : List IpPermission := l.map toPermS

/-- Remote responses consumed by one run of MerakiVMXDeployer.deploy: one
outcome per call site.  An `Except Unit` value is `.error ()` when the
call raises ClientError.  `authorizeFailAt` is the index of the first
ingress authorize call that raises, if any (the surrounding try swallows
it); `summaryRaises` models an unexpected exception in the final summary
stage, which the blanket handler of deploy catches. -/
structure ScryptEnv where
  createNetworkStatus : Nat
  createdNetworkId : String
  tokenStatus : Nat
  token : String
  createVpc : Except Unit String
  waitVpc : Except Unit Unit
  modifyVpcAttr1 : Except Unit Unit
  modifyVpcAttr2 : Except Unit Unit
  createIgw : Except Unit String
  attachIgw : Except Unit Unit
  createSubnet : Except Unit String
  createRouteTable : Except Unit String
  createRoute : Except Unit Unit
  associateRouteTable : Except Unit Unit
  createSecurityGroup : Except Unit String
  authorizeFailAt : Option Nat
  amiId : Option String
  runInstances : Except Unit String
  waitRunning : Except Unit Unit
  describeInst : Except Unit (Option String × Option String)
  vmxDevice : Option String
  summaryRaises : Bool

/-- MerakiVMXDeployer.generate_vmx_authentication_token: creates a network
when none is configured (requiring a 201), then requests the vMX token
(requiring a 201) and stores it in SSM (a put whose failure is caught
inside store_token_in_ssm).  Returns (token, network id) on success. -/
def generateVmxAuthenticationToken (orgId : String) (cfgNetworkId : Option String)
    (env : ScryptEnv) : Option (String × String) × List RemoteCall :=
  let netStep : Option String × List RemoteCall :=
    match cfgNetworkId with
    | some nid => (some nid, [])
    | none =>
      ((if env.createNetworkStatus == 201 then some env.createdNetworkId else none),
       [.meraki (.createNetwork orgId)])
  match netStep.1 with
  | none => (none, netStep.2)
  | some nid =>
    if env.tokenStatus == 201 then
      (some (env.token, nid),
       netStep.2 ++ [.meraki (.postVmxAuthToken nid), .aws .ssmPutParameter])
    else
      (none, netStep.2 ++ [.meraki (.postVmxAuthToken nid)])

/-- MerakiVMXDeployer.configure_vmx_security_group: authorize calls are
issued per rule in order; the first raising call ends the loop (the
exception is caught at function level and swallowed). -/
def configureVmxSecurityGroup (env : ScryptEnv) : List RemoteCall :=
  let perms := ingressPermsS securityRules
  match env.authorizeFailAt with
  | none => perms.map (fun p => .aws (.authorizeIngress p))
  | some k => (perms.take (k + 1)).map (fun p => .aws (.authorizeIngress p))

/-- The identifiers create_vpc_infrastructure returns on success. -/
structure Infrastructure where
  vpcId : String
  subnetId : String
  securityGroupId : String
  internetGatewayId : String
  routeTableId : String
  deriving DecidableEq, Repr

/-- MerakiVMXDeployer.create_vpc_infrastructure: the strict creation
sequence VPC → waiter → DNS attributes → IGW → attach → subnet → route
table → route → association → security group → ingress rules.  Any
ClientError in the main try aborts the remaining steps and returns None;
the ingress-rule loop swallows its own failures. -/
def createVpcInfrastructure (env : ScryptEnv) :
    Option Infrastructure × List RemoteCall :=
  let t0 : List RemoteCall := [.aws .createVpc]
  match env.createVpc with
  | .error _ => (none, t0)
  | .ok vpcId =>
    let t1 := t0 ++ [.aws .waitVpcAvailable]
    match env.waitVpc with
    | .error _ => (none, t1)
    | .ok _ =>
      let t2 := t1 ++ [.aws .modifyVpcAttribute]
      match env.modifyVpcAttr1 with
      | .error _ => (none, t2)
      | .ok _ =>
        let t3 := t2 ++ [.aws .modifyVpcAttribute]
        match env.modifyVpcAttr2 with
        | .error _ => (none, t3)
        | .ok _ =>
          let t4 := t3 ++ [.aws .createInternetGateway]
          match env.createIgw with
          | .error _ => (none, t4)
          | .ok igwId =>
            let t5 := t4 ++ [.aws .attachInternetGateway]
            match env.attachIgw with
            | .error _ => (none, t5)
            | .ok _ =>
              let t6 := t5 ++ [.aws .createSubnet]
              match env.createSubnet with
              | .error _ => (none, t6)
              | .ok subnetId =>
                let t7 := t6 ++ [.aws .createRouteTable]
                match env.createRouteTable with
                | .error _ => (none, t7)
                | .ok rtId =>
                  let t8 := t7 ++ [.aws .createRoute]
                  match env.createRoute with
                  | .error _ => (none, t8)
                  | .ok _ =>
                    let t9 := t8 ++ [.aws .associateRouteTable]
                    match env.associateRouteTable with
                    | .error _ => (none, t9)
                    | .ok _ =>
                      let t10 := t9 ++ [.aws .createSecurityGroup]
                      match env.createSecurityGroup with
                      | .error _ => (none, t10)
                      | .ok sgId =>
                        let t11 := t10 ++ configureVmxSecurityGroup env
                        (some { vpcId := vpcId, subnetId := subnetId,
                                securityGroupId := sgId, internetGatewayId := igwId,
                                routeTableId := rtId }, t11)

/-- MerakiVMXDeployer.deploy_vmx_instance: AMI lookup (None aborts before
any launch), IAM role setup (failure tolerated), run_instances, the
instance-running waiter, and the describe read-back.  A ClientError after
the launch is caught here and surfaces only as a None return — the
launched instance id is discarded. -/
def deployVmxInstance (env : ScryptEnv) :
    Option (String × Option String × Option String) × List RemoteCall :=
  let t0 : List RemoteCall := [.aws .describeImages]
  match env.amiId with
  | none => (none, t0)
  | some _ami =>
    let t1 := t0 ++ [.aws .iamSetup]
    let t2 := t1 ++ [.aws .runInstances]
    match env.runInstances with
    | .error _ => (none, t2)
    | .ok instanceId =>
      let t3 := t2 ++ [.aws .waitInstanceRunning]
      match env.waitRunning with
      | .error _ => (none, t3)
      | .ok _ =>
        let t4 := t3 ++ [.aws .describeInstances]
        match env.describeInst with
        | .error _ => (none, t4)
        | .ok (pub, priv) => (some (instanceId, pub, priv), t4)

/-- A value of the deployment_results dict. -/
inductive ResVal where
  | str (s : String)
  | infra (i : Infrastructure)
  | inst (instanceId : String) (publicIp privateIp : Option String)
  | dev (serial : String)
  deriving DecidableEq, Repr

/-- MerakiVMXDeployer.cleanup_on_failure: a terminate call is issued only
when the resources dict has the key "instance_id", whose value is then
used as the instance id. -/
def cleanupOnFailure (resources : List (String × ResVal)) : List RemoteCall :=
  match resources.lookup "instance_id" with
  | some (.str s) => [.aws (.terminateInstances s)]
  | some _ => [.aws (.terminateInstances "")]
  | none => []

/-- MerakiVMXDeployer.verify_vmx_deployment abstracted to its outcome: the
30-attempt polling loop returns the registered vMX device serial or None;
its remote calls are device-list GETs. -/
def verifyVmxDeployment (networkId : String) (env : ScryptEnv) :
    Option String × List RemoteCall :=
  (env.vmxDevice, [.meraki (.getDevices networkId)])

/-- MerakiVMXDeployer.deploy: token → infrastructure → instance → verify →
summary.  A token or infrastructure failure returns None directly; an
instance failure calls cleanup_on_failure with the results accumulated so
far; an unexpected exception in the final stage hits the blanket handler,
which also calls cleanup_on_failure.  The deployment_results dict is
modelled as an association list in insertion order. -/
def deployScrypt (orgId : String) (cfgNetworkId : Option String) (env : ScryptEnv) :
    Option (List (String × ResVal)) × List RemoteCall :=
  let gen := generateVmxAuthenticationToken orgId cfgNetworkId env
  match gen.1 with
  | none => (none, gen.2)
  | some tokNet =>
    let results1 : List (String × ResVal) :=
      [("auth_token", .str tokNet.1), ("network_id", .str tokNet.2)]
    let infraStep := createVpcInfrastructure env
    match infraStep.1 with
    | none => (none, gen.2 ++ infraStep.2)
    | some infra =>
      let results2 := results1 ++ [("infrastructure", .infra infra)]
      let instStep := deployVmxInstance env
      match instStep.1 with
      | none =>
        (none, gen.2 ++ infraStep.2 ++ instStep.2 ++ cleanupOnFailure results2)
      | some inst =>
        let results3 := results2 ++ [("instance", .inst inst.1 inst.2.1 inst.2.2)]
        let ver := verifyVmxDeployment tokNet.2 env
        let results4 := results3 ++
          (match ver.1 with | some s => [("device", .dev s)] | none => [])
        if env.summaryRaises then
          (none, gen.2 ++ infraStep.2 ++ instStep.2 ++ ver.2 ++ cleanupOnFailure results4)
        else
          (some results4, gen.2 ++ infraStep.2 ++ instStep.2 ++ ver.2)

/-- The required configuration fields validated by main of scrypt.py. -/
def requiredFieldsScrypt : List String :=
  ["meraki_api_key", "organization_id", "aws_region", "key_pair_name"]

/-- main of scrypt.py after the config file is parsed: the required-field
loop exits with code 1 on the first missing field, before the deployer is
built; a dry run validates and returns; otherwise deploy runs and the exit
code reflects its result.  Returns (exit code, issued remote calls). -/
def mainScrypt (cfgFields : List String) (dryRun : Bool) (orgId : String)
    (cfgNetworkId : Option String) (env : ScryptEnv) : Nat × List RemoteCall :=
  match requiredFieldsScrypt.find? (fun f => !(cfgFields.contains f)) with
  | some _ => (1, [])
  | none =>
    if dryRun then (0, [])
    else
      let run := deployScrypt orgId cfgNetworkId env
      (if run.1.isSome then 0 else 1, run.2)

end Scrypt

/-- The serial batch of an org-level claim call, when the call is one. -/
def claimPayload : ApiCall → Option (List String)
  | .claimDevices _ _ serials => some serials
  | _ => none

/-- Networks list exhibiting the loose match of get_target_network_id: a
network whose name starts with the known name stem appears before the
exact-name match. -/
def cexNetworks : List DeviceMove.NetworkInfo :=
  [ { name := "Meraki-Network-old", id := "N_100" },
    { name := "Branch-1", id := "N_200" } ]

/-- A polling environment whose first attempt sees no devices and whose
second sees one requested device online. -/
def c1Env : Nat → July.PollStep := fun i =>
  if i = 0 then .ok 200 200 [] []
  else .ok 200 200
    [{ serial := "Q2KD-0001", status := some "online",
       lastReportedAt := some "2024-07-24T10:00:00Z" }]
    [{ serial := "Q2KD-0001", model := "MX67" }]

/-- A polling environment whose first attempt sees no devices and whose
second device-status call returns HTTP 500. -/
def c10Env : Nat → July.PollStep := fun i =>
  if i = 0 then .ok 200 200 [] []
  else .ok 500 200 [] []

/-- A fully successful scrypt environment: every remote call succeeds. -/
def okScryptEnv : Scrypt.ScryptEnv :=
  { createNetworkStatus := 201, createdNetworkId := "N_500", tokenStatus := 201,
    token := "TOK-1", createVpc := .ok "vpc-1", waitVpc := .ok (),
    modifyVpcAttr1 := .ok (), modifyVpcAttr2 := .ok (), createIgw := .ok "igw-1",
    attachIgw := .ok (), createSubnet := .ok "subnet-1",
    createRouteTable := .ok "rtb-1", createRoute := .ok (),
    associateRouteTable := .ok (), createSecurityGroup := .ok "sg-1",
    authorizeFailAt := none, amiId := some "ami-1", runInstances := .ok "i-0abc",
    waitRunning := .ok (), describeInst := .ok (some "1.2.3.4", some "10.0.1.5"),
    vmxDevice := some "Q2SV-0001", summaryRaises := false }

/-- The environment of the C6 scenario: the security-group creation call
raises; every earlier step succeeds. -/
def c6Env : Scrypt.ScryptEnv := { okScryptEnv with createSecurityGroup := .error () }

/-- The environment of the C7 scenario: run_instances succeeds and the
instance-running waiter then raises. -/
def c7Env : Scrypt.ScryptEnv := { okScryptEnv with waitRunning := .error () }

/-- A benign environment of the 24JULY deploy, for the validation claim. -/
def c8JulyEnv : July.JulyEnv :=
  { createStatus := 201, createdNetworkId := "N_1", bindStatus := 200,
    invStatus := 200, inventory := [], claimResp := fun _ => 200,
    poll := fun _ => .ok 200 200 [] [] }

/-- A workinglocal environment whose inventory lookup finds one available
device. -/
def c9Env : WL.WLEnv :=
  { createStatus := 201, createdNetworkId := "N_900", bindOk := true,
    inv := fun _ => .resp 200
      [{ serial := some "Q2KD-0002", model := "MS120", networkId := none,
         orderNumber := some "4C000123" }]
      200 [{ id := "N_900", name := "Meraki-Network-test" }] }

/- ===================== Claim theorems ===================== -/

theorem July.chunks10_nil : July.chunks10 [] = [] := by
  rw [July.chunks10]
  simp

theorem July.chunks10_cons (l : List String) (h : l ≠ []) :
    July.chunks10 l = l.take 10 :: July.chunks10 (l.drop 10) := by
  rw [July.chunks10]
  simp [h]

theorem July.claimLoop_nil (resp : Nat → Nat) (i : Nat) :
    July.claimLoop resp i [] = ([], []) := by
  rw [July.claimLoop]
  simp

theorem July.claimLoop_cons (resp : Nat → Nat) (i : Nat) (l : List String) (h : l ≠ []) :
    July.claimLoop resp i l =
      (l.take 10 :: (July.claimLoop resp (i + 1) (l.drop 10)).1,
       (if resp i == 200 then l.take 10 else []) ++ (July.claimLoop resp (i + 1) (l.drop 10)).2) := by
  rw [July.claimLoop]
  simp [h]

/-- C3, counterexample: with target "Branch-1" and a list holding an exact
case-insensitive match (id N_200) after a name-stem network (id N_100),
get_target_network_id returns N_100 — the id of no exactly-matching
network — refuting that an exact match wins whenever one exists. -/
theorem c3_counterexample :
    DeviceMove.getTargetNetworkId "Branch-1" cexNetworks = some "N_100" ∧
    (∃ n ∈ cexNetworks, pyLower n.name = pyLower "Branch-1" ∧ n.id = "N_200") ∧
    ¬ ∃ n ∈ cexNetworks, pyLower n.name = pyLower "Branch-1" ∧
        DeviceMove.getTargetNetworkId "Branch-1" cexNetworks = some n.id := by
  decide

/-- C3, amended: get_target_network_id returns the id of the first network
in list order whose name case-insensitively equals the target or whose
lowercased name starts with "meraki-network" — exact matches get no
priority over earlier stem matches — and None exactly when no network
satisfies either condition. -/
theorem c3_amended_first_match (target : String)
    (networks : List DeviceMove.NetworkInfo) :
    (∀ i, DeviceMove.getTargetNetworkId target networks = some i →
      ∃ pre n post, networks = pre ++ n :: post ∧ n.id = i ∧
        DeviceMove.looseMatch target n = true ∧
        ∀ m ∈ pre, DeviceMove.looseMatch target m = false) ∧
    (DeviceMove.getTargetNetworkId target networks = none →
      ∀ n ∈ networks, DeviceMove.looseMatch target n = false) := by
  induction networks with
  | nil =>
    constructor
    · intro i hi
      simp [DeviceMove.getTargetNetworkId] at hi
    · intro _ n hn
      simp at hn
  | cons a l ih =>
    by_cases h : DeviceMove.looseMatch target a
    · have hres : DeviceMove.getTargetNetworkId target (a :: l) = some a.id := by
        simp [DeviceMove.getTargetNetworkId, List.find?_cons_of_pos _ h]
      constructor
      · intro i hi
        rw [hres] at hi
        refine ⟨[], a, l, by simp, ?_, h, by simp⟩
        exact Option.some.inj hi
      · intro hnone
        rw [hres] at hnone
        simp at hnone
    · constructor
      · intro i hi
        rw [DeviceMove.getTargetNetworkId] at hi
        rw [List.find?_cons_of_neg _ (by simpa using h)] at hi
        obtain ⟨pre, n, post, hsplit, hid, hm, hpre⟩ := ih.1 i hi
        refine ⟨a :: pre, n, post, by simp [hsplit], hid, hm, ?_⟩
        intro m hm2
        rcases List.mem_cons.mp hm2 with h1 | h1
        · simpa [h1] using h
        · exact hpre m h1
      · intro hnone n hn
        rw [DeviceMove.getTargetNetworkId] at hnone
        rw [List.find?_cons_of_neg _ (by simpa using h)] at hnone
        rcases List.mem_cons.mp hn with h1 | h1
        · simpa [h1] using h
        · exact ih.2 hnone n h1

/-- C3, witness for the amended theorem at a concrete input. -/
theorem c3_amended_first_match_witness :
    DeviceMove.getTargetNetworkId "Branch-1" cexNetworks = some "N_100" ∧
    ∃ pre n post, cexNetworks = pre ++ n :: post ∧ n.id = "N_100" ∧
      DeviceMove.looseMatch "Branch-1" n = true ∧
      ∀ m ∈ pre, DeviceMove.looseMatch "Branch-1" m = false :=
  ⟨by decide, (c3_amended_first_match "Branch-1" cexNetworks).1 "N_100" (by decide)⟩

/-- C4: in move_device with a non-null current network `a` and target
network `targetId`, the detach POST targets `a`, the claim POST targets
`targetId` with the device serial, the outcome and trace are independent
of the remove response (a failed detach never prevents the claim), and the
returned success holds iff the claim status is 200 or 201. -/
theorem c4_move_device (device : DeviceMove.DeviceInfo) (targetId : String)
    (a : String) (h : device.networkId = some a) (r1 r2 c : Nat) :
    (DeviceMove.moveDevice device targetId r1 c).2 =
      [.removeDevice a device.serial, .claimIntoNetwork targetId [device.serial]] ∧
    DeviceMove.moveDevice device targetId r1 c =
      DeviceMove.moveDevice device targetId r2 c ∧
    ((DeviceMove.moveDevice device targetId r1 c).1 = true ↔ (c = 200 ∨ c = 201)) := by
  refine ⟨?_, rfl, ?_⟩
  · simp [DeviceMove.moveDevice, h]
  · simp [DeviceMove.moveDevice]

/-- C4, witness at a concrete device whose detach response is a failure
status (500) while the claim response is 201. -/
theorem c4_move_device_witness :
    (DeviceMove.moveDevice ⟨"Q2XX-0001", some "N_A"⟩ "N_B" 500 201).2 =
      [.removeDevice "N_A" "Q2XX-0001", .claimIntoNetwork "N_B" ["Q2XX-0001"]] ∧
    DeviceMove.moveDevice ⟨"Q2XX-0001", some "N_A"⟩ "N_B" 500 201 =
      DeviceMove.moveDevice ⟨"Q2XX-0001", some "N_A"⟩ "N_B" 404 201 ∧
    ((DeviceMove.moveDevice ⟨"Q2XX-0001", some "N_A"⟩ "N_B" 500 201).1 = true ↔
      (201 = 200 ∨ 201 = 201)) :=
  c4_move_device ⟨"Q2XX-0001", some "N_A"⟩ "N_B" "N_A" rfl 500 404 201

/-- C5: both security-group provisioners authorize exactly the required
appliance ingress rule set — TCP 22, TCP 443, UDP 500, UDP 4500, ICMP all
types, IP protocols 50 and 51 — each for 0.0.0.0/0 and nothing else, and
the issued rule multiset is invariant over any reordering of the rule
definitions. -/
theorem c5_security_group_rules :
    ((Vmx.ingressPerms Vmx.rules).map keyOf).Perm requiredRuleKeys ∧
    (∀ p ∈ Vmx.ingressPerms Vmx.rules, p.ipRanges = ["0.0.0.0/0"]) ∧
    ((Scrypt.ingressPermsS Scrypt.securityRules).map keyOf).Perm requiredRuleKeys ∧
    (∀ p ∈ Scrypt.ingressPermsS Scrypt.securityRules, p.ipRanges = ["0.0.0.0/0"]) ∧
    (∀ l : List Vmx.SgRule, l.Perm Vmx.rules →
      ((Vmx.ingressPerms l).map keyOf).Perm requiredRuleKeys) ∧
    (∀ l : List Scrypt.SgRuleS, l.Perm Scrypt.securityRules →
      ((Scrypt.ingressPermsS l).map keyOf).Perm requiredRuleKeys) := by
  refine ⟨by decide, by decide, by decide, by decide, ?_, ?_⟩
  · intro l hl
    exact ((hl.map Vmx.toPerm).map keyOf).trans (by decide)
  · intro l hl
    exact ((hl.map Scrypt.toPermS).map keyOf).trans (by decide)

/-- C5, witness: a reversed rule list is a permutation of the source list
and still yields exactly the required rule set. -/
theorem c5_security_group_rules_witness :
    (Vmx.rules.reverse).Perm Vmx.rules ∧
    ((Vmx.ingressPerms Vmx.rules.reverse).map keyOf).Perm requiredRuleKeys :=
  ⟨by decide, c5_security_group_rules.2.2.2.2.1 Vmx.rules.reverse (by decide)⟩

theorem July.chunks10_length (l : List String) :
    (July.chunks10 l).length = (l.length + 9) / 10 := by
  by_cases h : l = []
  · subst h
    simp [July.chunks10_nil]
  · rw [July.chunks10_cons l h]
    have hl : 0 < l.length := List.length_pos.mpr h
    have ih := July.chunks10_length (l.drop 10)
    simp only [List.length_cons, ih, List.length_drop]
    omega
termination_by l.length
decreasing_by
  have hl : 0 < l.length := List.length_pos.mpr h
  simp only [List.length_drop]
  omega

theorem July.chunks10_join (l : List String) : (July.chunks10 l).join = l := by
  by_cases h : l = []
  · subst h
    simp [July.chunks10_nil]
  · rw [July.chunks10_cons l h]
    have ih := July.chunks10_join (l.drop 10)
    simp [ih]
termination_by l.length
decreasing_by
  have hl : 0 < l.length := List.length_pos.mpr h
  simp only [List.length_drop]
  omega

theorem July.chunks10_le (l : List String) :
    ∀ b ∈ July.chunks10 l, b.length ≤ 10 := by
  by_cases h : l = []
  · subst h
    simp [July.chunks10_nil]
  · rw [July.chunks10_cons l h]
    intro b hb
    rcases List.mem_cons.mp hb with h1 | h1
    · subst h1
      simp [List.length_take]
    · exact July.chunks10_le (l.drop 10) b h1
termination_by l.length
decreasing_by
  have hl : 0 < l.length := List.length_pos.mpr h
  simp only [List.length_drop]
  omega

theorem July.claimLoop_fst (resp : Nat → Nat) (i : Nat) (l : List String) :
    (July.claimLoop resp i l).1 = July.chunks10 l := by
  by_cases h : l = []
  · subst h
    simp [July.claimLoop_nil, July.chunks10_nil]
  · rw [July.claimLoop_cons resp i l h, July.chunks10_cons l h]
    have ih := July.claimLoop_fst resp (i + 1) (l.drop 10)
    simp [ih]
termination_by l.length
decreasing_by
  have hl : 0 < l.length := List.length_pos.mpr h
  simp only [List.length_drop]
  omega

theorem July.claimLoop_snd_mem (resp : Nat → Nat) (i : Nat) (l : List String)
    (s : String) :
    s ∈ (July.claimLoop resp i l).2 ↔
      ∃ j b, (July.chunks10 l)[j]? = some b ∧ resp (i + j) = 200 ∧ s ∈ b := by
  by_cases h : l = []
  · subst h
    simp [July.claimLoop_nil, July.chunks10_nil]
  · rw [July.claimLoop_cons resp i l h, July.chunks10_cons l h]
    have ih := July.claimLoop_snd_mem resp (i + 1) (l.drop 10) s
    constructor
    · intro hs
      rcases List.mem_append.mp hs with h1 | h1
      · by_cases hr : resp i == 200
        · refine ⟨0, l.take 10, by simp, by simpa using hr, ?_⟩
          simpa [hr] using h1
        · simp [hr] at h1
      · obtain ⟨j, b, hget, hresp, hsb⟩ := ih.mp h1
        refine ⟨j + 1, b, by simpa using hget, ?_, hsb⟩
        have : i + (j + 1) = i + 1 + j := by omega
        rw [this]
        exact hresp
    · rintro ⟨j, b, hget, hresp, hsb⟩
      cases j with
      | zero =>
        simp only [List.getElem?_cons_zero, Option.some.injEq] at hget
        subst hget
        apply List.mem_append.mpr
        left
        have : resp i == 200 := by simpa using hresp
        simpa [this] using hsb
      | succ j =>
        apply List.mem_append.mpr
        right
        apply ih.mpr
        refine ⟨j, b, by simpa using hget, ?_, hsb⟩
        have : i + 1 + j = i + (j + 1) := by omega
        rw [this]
        exact hresp
termination_by l.length
decreasing_by
  have hl : 0 < l.length := List.length_pos.mpr h
  simp only [List.length_drop]
  omega

theorem July.verifyLoop_calls (net : String) (serials : List String)
    (env : Nat → July.PollStep) (attempt : Nat) :
    ∀ c ∈ (July.verifyLoop net serials env attempt).calls,
      c = ApiCall.getDeviceStatuses net ∨ c = ApiCall.getDevices net := by
  by_cases h : attempt < 4
  · have ih := July.verifyLoop_calls net serials env (attempt + 1)
    rw [July.verifyLoop]
    simp only [dif_pos h]
    cases henv : env attempt with
    | exn =>
      simpa using ih
    | ok scS scD statuses devices =>
      by_cases hsc : (scS == 200 && scD == 200) = true
      · by_cases hm : (July.matchedDevices serials statuses devices).isEmpty = true
        · simp only [hsc, if_true, hm]
          intro c hc
          rcases List.mem_cons.mp hc with h1 | h1
          · exact Or.inl h1
          · rcases List.mem_cons.mp h1 with h2 | h2
            · exact Or.inr h2
            · exact ih c h2
        · simp only [hsc, if_true, hm, if_false]
          intro c hc
          rcases List.mem_cons.mp hc with h1 | h1
          · exact Or.inl h1
          · rcases List.mem_cons.mp h1 with h2 | h2
            · exact Or.inr h2
            · simp at h2
      · simp only [hsc, if_false]
        intro c hc
        rcases List.mem_cons.mp hc with h1 | h1
        · exact Or.inl h1
        · rcases List.mem_cons.mp h1 with h2 | h2
          · exact Or.inr h2
          · simp at h2
  · rw [July.verifyLoop]
    simp [h]
termination_by 4 - attempt
decreasing_by omega

/-- C2: add_devices_to_network claims N provided serials (N ≥ 1) with
exactly ceil(N/10) claim calls: the posted batches are consecutive slices
of at most 10 serials in input order whose concatenation is the input; the
posted batches do not depend on the responses (every batch is attempted
even after an earlier failure); a serial ends in the claimed set iff it
lies in a batch whose claim response was HTTP 200; and the claim calls of
the full add_devices_to_network trace carry exactly those batches. -/
theorem c2_claim_batching (resp resp2 : Nat → Nat) (serials : List String)
    (hN : 1 ≤ serials.length) :
    (July.claimLoop resp 0 serials).1.length = (serials.length + 9) / 10 ∧
    (July.claimLoop resp 0 serials).1.join = serials ∧
    (∀ b ∈ (July.claimLoop resp 0 serials).1, b.length ≤ 10) ∧
    (July.claimLoop resp 0 serials).1 = (July.claimLoop resp2 0 serials).1 ∧
    (∀ s, s ∈ (July.claimLoop resp 0 serials).2 ↔
      ∃ j b, ((July.claimLoop resp 0 serials).1)[j]? = some b ∧ resp j = 200 ∧ s ∈ b) ∧
    (∀ (env : July.JulyEnv) (org net : String),
      (July.addDevicesToNetwork org net (some serials) env).2.filterMap claimPayload =
        (July.claimLoop env.claimResp 0 serials).1) := by
  have hfst := July.claimLoop_fst resp 0 serials
  refine ⟨?_, ?_, ?_, ?_, ?_, ?_⟩
  · rw [hfst, July.chunks10_length]
  · rw [hfst, July.chunks10_join]
  · rw [hfst]
    exact July.chunks10_le serials
  · rw [hfst, July.claimLoop_fst resp2 0 serials]
  · intro s
    rw [hfst]
    simpa using July.claimLoop_snd_mem resp 0 serials s
  · intro env org net
    have hne : serials ≠ [] := by
      intro hh
      rw [hh] at hN
      simp at hN
    have hid : ∀ l : List (List String),
        List.filterMap (claimPayload ∘ fun b => ApiCall.claimDevices org (some net) b) l = l := by
      intro l
      induction l with
      | nil => rfl
      | cons a t ih => simp [claimPayload, ih]
    rw [July.addDevicesToNetwork]
    by_cases hcl : (July.claimLoop env.claimResp 0 serials).2 = []
    · simp [hne, hcl, List.filterMap_map, hid]
    · have hv := July.verifyLoop_calls net (July.claimLoop env.claimResp 0 serials).2 env.poll 0
      have hnilv : ((July.verifyDevices net (July.claimLoop env.claimResp 0 serials).2 env.poll).calls).filterMap claimPayload = [] := by
        apply List.filterMap_eq_nil_iff.mpr
        intro c hc
        rcases hv c hc with h1 | h1 <;> simp [h1, claimPayload]
      simp [hne, hcl, List.filterMap_append, hnilv, List.filterMap_map, hid]

/-- C2, witness: eleven serials yield two claim calls; with the first
batch accepted (200) and the second rejected (500), exactly the first ten
serials are claimed. -/
theorem c2_claim_batching_witness :
    1 ≤ (List.range 11).length ∧
    (July.claimLoop (fun j => if j = 0 then 200 else 500) 0
        ((List.range 11).map (fun n => toString n))).1.length =
      (((List.range 11).map (fun n => toString n)).length + 9) / 10 :=
  ⟨by decide,
   (c2_claim_batching (fun j => if j = 0 then 200 else 500) (fun _ => 200)
      ((List.range 11).map (fun n => toString n)) (by decide)).1⟩

theorem July.verifyLoop_stop (net : String) (serials : List String)
    (env : Nat → July.PollStep) (attempt : Nat) (h : ¬ attempt < 4) :
    July.verifyLoop net serials env attempt =
      { result := none, polls := 0, sleeps := [], calls := [] } := by
  rw [July.verifyLoop]
  simp [h]

theorem July.verifyLoop_found (net : String) (serials : List String)
    (env : Nat → July.PollStep) (attempt : Nat) (h : attempt < 4)
    (sts : List July.StatusRec) (devs : List July.DeviceRec)
    (henv : env attempt = .ok 200 200 sts devs)
    (hm : July.matchedDevices serials sts devs ≠ []) :
    July.verifyLoop net serials env attempt =
      { result := some (July.matchedDevices serials sts devs), polls := 1,
        sleeps := [],
        calls := [.getDeviceStatuses net, .getDevices net] } := by
  conv_lhs => rw [July.verifyLoop]
  simp [h, henv, List.isEmpty_iff, hm]

theorem July.verifyLoop_empty_step (net : String) (serials : List String)
    (env : Nat → July.PollStep) (attempt : Nat) (h : attempt < 4)
    (sts : List July.StatusRec) (devs : List July.DeviceRec)
    (henv : env attempt = .ok 200 200 sts devs)
    (hm : July.matchedDevices serials sts devs = []) :
    July.verifyLoop net serials env attempt =
      { result := (July.verifyLoop net serials env (attempt + 1)).result,
        polls := (July.verifyLoop net serials env (attempt + 1)).polls + 1,
        sleeps := 60 :: (July.verifyLoop net serials env (attempt + 1)).sleeps,
        calls := .getDeviceStatuses net :: .getDevices net ::
          (July.verifyLoop net serials env (attempt + 1)).calls } := by
  conv_lhs => rw [July.verifyLoop]
  simp [h, henv, List.isEmpty_iff, hm]

theorem July.verifyLoop_badresp (net : String) (serials : List String)
    (env : Nat → July.PollStep) (attempt : Nat) (h : attempt < 4)
    (scS scD : Nat) (sts : List July.StatusRec) (devs : List July.DeviceRec)
    (henv : env attempt = .ok scS scD sts devs)
    (hbad : ¬ (scS == 200 && scD == 200) = true) :
    July.verifyLoop net serials env attempt =
      { result := none, polls := 1, sleeps := [],
        calls := [.getDeviceStatuses net, .getDevices net] } := by
  conv_lhs => rw [July.verifyLoop]
  simp [h, henv, hbad]

theorem July.verifyLoop_exn (net : String) (serials : List String)
    (env : Nat → July.PollStep) (attempt : Nat) (h : attempt < 4)
    (henv : env attempt = .exn) :
    July.verifyLoop net serials env attempt =
      { result := (July.verifyLoop net serials env (attempt + 1)).result,
        polls := (July.verifyLoop net serials env (attempt + 1)).polls + 1,
        sleeps := 30 :: (July.verifyLoop net serials env (attempt + 1)).sleeps,
        calls := (July.verifyLoop net serials env (attempt + 1)).calls } := by
  conv_lhs => rw [July.verifyLoop]
  simp [h, henv]

theorem July.verifyLoop_polls_le (net : String) (serials : List String)
    (env : Nat → July.PollStep) (attempt : Nat) :
    (July.verifyLoop net serials env attempt).polls ≤ 4 - attempt := by
  by_cases h : attempt < 4
  · have ih := July.verifyLoop_polls_le net serials env (attempt + 1)
    cases henv : env attempt with
    | exn =>
      rw [July.verifyLoop_exn net serials env attempt h henv]
      simp only []
      omega
    | ok scS scD sts devs =>
      by_cases hsc : (scS == 200 && scD == 200) = true
      · by_cases hm : July.matchedDevices serials sts devs = []
        · have h200 : scS = 200 ∧ scD = 200 := by
            simpa using hsc
          rw [h200.1, h200.2] at henv
          rw [July.verifyLoop_empty_step net serials env attempt h sts devs henv hm]
          simp only []
          omega
        · have h200 : scS = 200 ∧ scD = 200 := by
            simpa using hsc
          rw [h200.1, h200.2] at henv
          rw [July.verifyLoop_found net serials env attempt h sts devs henv hm]
          show (1 : Nat) ≤ 4 - attempt
          omega
      · rw [July.verifyLoop_badresp net serials env attempt h scS scD sts devs henv hsc]
        show (1 : Nat) ≤ 4 - attempt
        omega
  · rw [July.verifyLoop_stop net serials env attempt h]
    simp
termination_by 4 - attempt
decreasing_by omega

theorem July.verifyLoop_run_empty_then_found (net : String) (serials : List String)
    (env : Nat → July.PollStep) (k : Nat) :
    ∀ a, a + k < 4 →
    (∀ i, i < k → ∃ s d, env (a + i) = .ok 200 200 s d ∧
      July.matchedDevices serials s d = []) →
    ∀ sts devs, env (a + k) = .ok 200 200 sts devs →
    July.matchedDevices serials sts devs ≠ [] →
    (July.verifyLoop net serials env a).result =
        some (July.matchedDevices serials sts devs) ∧
      (July.verifyLoop net serials env a).polls = k + 1 ∧
      (July.verifyLoop net serials env a).sleeps = List.replicate k 60 := by
  induction k with
  | zero =>
    intro a ha _ sts devs hfound hm
    rw [July.verifyLoop_found net serials env a (by omega) sts devs (by simpa using hfound) hm]
    simp
  | succ k ih =>
    intro a ha hempty sts devs hfound hm
    obtain ⟨s0, d0, h0, hm0⟩ := hempty 0 (by omega)
    rw [July.verifyLoop_empty_step net serials env a (by omega) s0 d0 (by simpa using h0) hm0]
    have hnext := ih (a + 1) (by omega)
      (fun i hi => by
        obtain ⟨s, d, h1, h2⟩ := hempty (i + 1) (by omega)
        exact ⟨s, d, by rw [show a + 1 + i = a + (i + 1) by omega]; exact h1, h2⟩)
      sts devs (by rw [show a + 1 + k = a + (k + 1) by omega]; exact hfound) hm
    refine ⟨hnext.1, ?_, ?_⟩
    · simp only [hnext.2.1]
    · simp only [hnext.2.2, List.replicate_succ]

theorem July.verifyLoop_run_all_empty (net : String) (serials : List String)
    (env : Nat → July.PollStep) (k : Nat) :
    ∀ a, a + k = 4 →
    (∀ i, i < k → ∃ s d, env (a + i) = .ok 200 200 s d ∧
      July.matchedDevices serials s d = []) →
    (July.verifyLoop net serials env a).result = none ∧
      (July.verifyLoop net serials env a).polls = k ∧
      (July.verifyLoop net serials env a).sleeps = List.replicate k 60 := by
  induction k with
  | zero =>
    intro a ha _
    rw [July.verifyLoop_stop net serials env a (by omega)]
    simp
  | succ k ih =>
    intro a ha hempty
    obtain ⟨s0, d0, h0, hm0⟩ := hempty 0 (by omega)
    rw [July.verifyLoop_empty_step net serials env a (by omega) s0 d0 (by simpa using h0) hm0]
    have hnext := ih (a + 1) (by omega)
      (fun i hi => by
        obtain ⟨s, d, h1, h2⟩ := hempty (i + 1) (by omega)
        exact ⟨s, d, by rw [show a + 1 + i = a + (i + 1) by omega]; exact h1, h2⟩)
    refine ⟨hnext.1, ?_, ?_⟩
    · simp only [hnext.2.1]
    · simp only [hnext.2.2, List.replicate_succ]

theorem July.verifyLoop_run_exn_then_found (net : String) (serials : List String)
    (env : Nat → July.PollStep) (k : Nat) :
    ∀ a, a + k < 4 →
    (∀ i, i < k → env (a + i) = .exn) →
    ∀ sts devs, env (a + k) = .ok 200 200 sts devs →
    July.matchedDevices serials sts devs ≠ [] →
    (July.verifyLoop net serials env a).result =
        some (July.matchedDevices serials sts devs) ∧
      (July.verifyLoop net serials env a).polls = k + 1 ∧
      (July.verifyLoop net serials env a).sleeps = List.replicate k 30 := by
  induction k with
  | zero =>
    intro a ha _ sts devs hfound hm
    rw [July.verifyLoop_found net serials env a (by omega) sts devs (by simpa using hfound) hm]
    simp
  | succ k ih =>
    intro a ha hexn sts devs hfound hm
    rw [July.verifyLoop_exn net serials env a (by omega) (by simpa using hexn 0 (by omega))]
    have hnext := ih (a + 1) (by omega)
      (fun i hi => by
        rw [show a + 1 + i = a + (i + 1) by omega]
        exact hexn (i + 1) (by omega))
      sts devs (by rw [show a + 1 + k = a + (k + 1) by omega]; exact hfound) hm
    refine ⟨hnext.1, ?_, ?_⟩
    · simp only [hnext.2.1]
    · simp only [hnext.2.2, List.replicate_succ]

theorem July.verifyLoop_run_all_exn (net : String) (serials : List String)
    (env : Nat → July.PollStep) (k : Nat) :
    ∀ a, a + k = 4 →
    (∀ i, i < k → env (a + i) = .exn) →
    (July.verifyLoop net serials env a).result = none ∧
      (July.verifyLoop net serials env a).polls = k ∧
      (July.verifyLoop net serials env a).sleeps = List.replicate k 30 := by
  induction k with
  | zero =>
    intro a ha _
    rw [July.verifyLoop_stop net serials env a (by omega)]
    simp
  | succ k ih =>
    intro a ha hexn
    rw [July.verifyLoop_exn net serials env a (by omega) (by simpa using hexn 0 (by omega))]
    have hnext := ih (a + 1) (by omega)
      (fun i hi => by
        rw [show a + 1 + i = a + (i + 1) by omega]
        exact hexn (i + 1) (by omega))
    refine ⟨hnext.1, ?_, ?_⟩
    · simp only [hnext.2.1]
    · simp only [hnext.2.2, List.replicate_succ]

theorem July.verifyLoop_run_empty_then_bad (net : String) (serials : List String)
    (env : Nat → July.PollStep) (k : Nat) :
    ∀ a, a + k < 4 →
    (∀ i, i < k → ∃ s d, env (a + i) = .ok 200 200 s d ∧
      July.matchedDevices serials s d = []) →
    ∀ scS scD sts devs, env (a + k) = .ok scS scD sts devs →
    ¬ (scS == 200 && scD == 200) = true →
    (July.verifyLoop net serials env a).result = none ∧
      (July.verifyLoop net serials env a).polls = k + 1 ∧
      (July.verifyLoop net serials env a).sleeps = List.replicate k 60 := by
  induction k with
  | zero =>
    intro a ha _ scS scD sts devs hbadresp hbad
    rw [July.verifyLoop_badresp net serials env a (by omega) scS scD sts devs
      (by simpa using hbadresp) hbad]
    simp
  | succ k ih =>
    intro a ha hempty scS scD sts devs hbadresp hbad
    obtain ⟨s0, d0, h0, hm0⟩ := hempty 0 (by omega)
    rw [July.verifyLoop_empty_step net serials env a (by omega) s0 d0 (by simpa using h0) hm0]
    have hnext := ih (a + 1) (by omega)
      (fun i hi => by
        obtain ⟨s, d, h1, h2⟩ := hempty (i + 1) (by omega)
        exact ⟨s, d, by rw [show a + 1 + i = a + (i + 1) by omega]; exact h1, h2⟩)
      scS scD sts devs
      (by rw [show a + 1 + k = a + (k + 1) by omega]; exact hbadresp) hbad
    refine ⟨hnext.1, ?_, ?_⟩
    · simp only [hnext.2.1]
    · simp only [hnext.2.2, List.replicate_succ]

/-- C1: verify_devices performs at most 4 polling attempts; when the first
K - 1 well-formed attempts match nothing and the Kth (K ≤ 4) matches at
least one requested serial, exactly K attempts are performed and exactly
that annotated matched subset is returned at once, without waiting for the
remaining serials; when all 4 attempts match nothing, None is returned
without raising, every call of the run being a device-list or
device-status GET — in particular no un-claim call is issued. -/
theorem c1_verify_polling :
    (∀ (net : String) (serials : List String) (env : Nat → July.PollStep),
      (July.verifyDevices net serials env).polls ≤ 4) ∧
    (∀ (net : String) (serials : List String) (env : Nat → July.PollStep)
      (K : Nat) (sts : List July.StatusRec) (devs : List July.DeviceRec),
      1 ≤ K → K ≤ 4 →
      (∀ i, i < K - 1 → ∃ s d, env i = .ok 200 200 s d ∧
        July.matchedDevices serials s d = []) →
      env (K - 1) = .ok 200 200 sts devs →
      July.matchedDevices serials sts devs ≠ [] →
      (July.verifyDevices net serials env).result =
          some (July.matchedDevices serials sts devs) ∧
        (July.verifyDevices net serials env).polls = K) ∧
    (∀ (net : String) (serials : List String) (env : Nat → July.PollStep),
      (∀ i, i < 4 → ∃ s d, env i = .ok 200 200 s d ∧
        July.matchedDevices serials s d = []) →
      (July.verifyDevices net serials env).result = none ∧
        (July.verifyDevices net serials env).polls = 4 ∧
        ∀ c ∈ (July.verifyDevices net serials env).calls,
          c = ApiCall.getDeviceStatuses net ∨ c = ApiCall.getDevices net) := by
  refine ⟨?_, ?_, ?_⟩
  · intro net serials env
    have := July.verifyLoop_polls_le net serials env 0
    simpa [July.verifyDevices] using this
  · intro net serials env K sts devs hK1 hK4 hempty hfound hm
    have hrun := July.verifyLoop_run_empty_then_found net serials env (K - 1) 0 (by omega)
      (fun i hi => by simpa using hempty i hi)
      sts devs (by simpa using hfound) hm
    refine ⟨hrun.1, ?_⟩
    show (July.verifyLoop net serials env 0).polls = K
    rw [hrun.2.1]
    omega
  · intro net serials env hallempty
    have hrun := July.verifyLoop_run_all_empty net serials env 4 0 (by omega)
      (fun i hi => by simpa using hallempty i hi)
    exact ⟨hrun.1, hrun.2.1, fun c hc => July.verifyLoop_calls net serials env 0 c hc⟩

/-- C1, witness: with an empty first attempt and a matching second one,
two attempts are performed and the annotated device is returned. -/
theorem c1_verify_polling_witness :
    (July.verifyDevices "N_1" ["Q2KD-0001"] c1Env).result =
        some (July.matchedDevices ["Q2KD-0001"]
          [{ serial := "Q2KD-0001", status := some "online",
             lastReportedAt := some "2024-07-24T10:00:00Z" }]
          [{ serial := "Q2KD-0001", model := "MX67" }]) ∧
      (July.verifyDevices "N_1" ["Q2KD-0001"] c1Env).polls = 2 :=
  c1_verify_polling.2.1 "N_1" ["Q2KD-0001"] c1Env 2
    [{ serial := "Q2KD-0001", status := some "online",
       lastReportedAt := some "2024-07-24T10:00:00Z" }]
    [{ serial := "Q2KD-0001", model := "MX67" }]
    (by omega) (by omega)
    (fun i hi => by
      interval_cases i
      exact ⟨[], [], rfl, rfl⟩)
    rfl (by decide)

/-- C10: within verify_devices, an attempt whose device-status or
device-list call returns a non-200 status makes the function return None
at once — the remaining attempts are abandoned and no sleep follows — while
an attempt that raises a requests exception consumes one attempt of the
bounded budget and sleeps 30 seconds (not the 60-second inter-attempt
delay) before retrying; four exception attempts exhaust the budget. -/
theorem c10_error_paths :
    (∀ (net : String) (serials : List String) (env : Nat → July.PollStep)
      (j scS scD : Nat) (sts : List July.StatusRec) (devs : List July.DeviceRec),
      j < 4 →
      (∀ i, i < j → ∃ s d, env i = .ok 200 200 s d ∧
        July.matchedDevices serials s d = []) →
      env j = .ok scS scD sts devs →
      ¬ (scS == 200 && scD == 200) = true →
      (July.verifyDevices net serials env).result = none ∧
        (July.verifyDevices net serials env).polls = j + 1 ∧
        (July.verifyDevices net serials env).sleeps = List.replicate j 60) ∧
    (∀ (net : String) (serials : List String) (env : Nat → July.PollStep)
      (j : Nat) (sts : List July.StatusRec) (devs : List July.DeviceRec),
      j < 4 →
      (∀ i, i < j → env i = .exn) →
      env j = .ok 200 200 sts devs →
      July.matchedDevices serials sts devs ≠ [] →
      (July.verifyDevices net serials env).result =
          some (July.matchedDevices serials sts devs) ∧
        (July.verifyDevices net serials env).polls = j + 1 ∧
        (July.verifyDevices net serials env).sleeps = List.replicate j 30) ∧
    (∀ (net : String) (serials : List String) (env : Nat → July.PollStep),
      (∀ i, i < 4 → env i = .exn) →
      (July.verifyDevices net serials env).result = none ∧
        (July.verifyDevices net serials env).polls = 4 ∧
        (July.verifyDevices net serials env).sleeps = List.replicate 4 30) := by
  refine ⟨?_, ?_, ?_⟩
  · intro net serials env j scS scD sts devs hj hempty hbadresp hbad
    have hrun := July.verifyLoop_run_empty_then_bad net serials env j 0 (by omega)
      (fun i hi => by simpa using hempty i hi)
      scS scD sts devs (by simpa using hbadresp) hbad
    exact hrun
  · intro net serials env j sts devs hj hexn hfound hm
    have hrun := July.verifyLoop_run_exn_then_found net serials env j 0 (by omega)
      (fun i hi => by simpa using hexn i hi)
      sts devs (by simpa using hfound) hm
    exact hrun
  · intro net serials env hexn
    have hrun := July.verifyLoop_run_all_exn net serials env 4 0 (by omega)
      (fun i hi => by simpa using hexn i hi)
    exact hrun

/-- C10, witness: an empty first attempt followed by a 500 on the
device-status call of the second attempt yields None after exactly 2
attempts and a single 60-second sleep. -/
theorem c10_error_paths_witness :
    (July.verifyDevices "N_1" ["Q2KD-0001"] c10Env).result = none ∧
      (July.verifyDevices "N_1" ["Q2KD-0001"] c10Env).polls = 2 ∧
      (July.verifyDevices "N_1" ["Q2KD-0001"] c10Env).sleeps = List.replicate 1 60 :=
  c10_error_paths.1 "N_1" ["Q2KD-0001"] c10Env 1 500 200 [] []
    (by omega)
    (fun i hi => by
      interval_cases i
      exact ⟨[], [], rfl, rfl⟩)
    rfl (by decide)

theorem Scrypt.gen_calls_no_terminate (orgId : String) (cfg : Option String)
    (env : Scrypt.ScryptEnv) (iid : String) :
    RemoteCall.aws (.terminateInstances iid) ∉
      (Scrypt.generateVmxAuthenticationToken orgId cfg env).2 := by
  rw [Scrypt.generateVmxAuthenticationToken.eq_def]
  cases cfg with
  | some nid =>
    by_cases h : (env.tokenStatus == 201) = true <;> simp [h]
  | none =>
    by_cases hc : (env.createNetworkStatus == 201) = true
    · by_cases h : (env.tokenStatus == 201) = true <;> simp [hc, h]
    · simp [hc]

theorem Scrypt.sg_calls_no_terminate (env : Scrypt.ScryptEnv) (iid : String) :
    RemoteCall.aws (.terminateInstances iid) ∉ Scrypt.configureVmxSecurityGroup env := by
  rw [Scrypt.configureVmxSecurityGroup]
  cases env.authorizeFailAt with
  | none => simp
  | some k =>
    intro hmem
    have hfull := List.mem_of_mem_take (by simpa using hmem)
    simp at hfull

theorem Scrypt.infra_calls_no_terminate (env : Scrypt.ScryptEnv) (iid : String) :
    RemoteCall.aws (.terminateInstances iid) ∉ (Scrypt.createVpcInfrastructure env).2 := by
  rw [Scrypt.createVpcInfrastructure]
  rcases h1 : env.createVpc with e | vpcId
  · simp [h1]
  rcases h2 : env.waitVpc with e | u
  · simp [h1, h2]
  rcases h3 : env.modifyVpcAttr1 with e | u
  · simp [h1, h2, h3]
  rcases h4 : env.modifyVpcAttr2 with e | u
  · simp [h1, h2, h3, h4]
  rcases h5 : env.createIgw with e | igwId
  · simp [h1, h2, h3, h4, h5]
  rcases h6 : env.attachIgw with e | u
  · simp [h1, h2, h3, h4, h5, h6]
  rcases h7 : env.createSubnet with e | subnetId
  · simp [h1, h2, h3, h4, h5, h6, h7]
  rcases h8 : env.createRouteTable with e | rtId
  · simp [h1, h2, h3, h4, h5, h6, h7, h8]
  rcases h9 : env.createRoute with e | u
  · simp [h1, h2, h3, h4, h5, h6, h7, h8, h9]
  rcases h10 : env.associateRouteTable with e | u
  · simp [h1, h2, h3, h4, h5, h6, h7, h8, h9, h10]
  rcases h11 : env.createSecurityGroup with e | sgId
  · simp [h1, h2, h3, h4, h5, h6, h7, h8, h9, h10, h11]
  · simp [h1, h2, h3, h4, h5, h6, h7, h8, h9, h10, h11,
      Scrypt.sg_calls_no_terminate env iid]

theorem Scrypt.inst_calls_no_terminate (env : Scrypt.ScryptEnv) (iid : String) :
    RemoteCall.aws (.terminateInstances iid) ∉ (Scrypt.deployVmxInstance env).2 := by
  rw [Scrypt.deployVmxInstance]
  rcases h1 : env.amiId with _ | ami
  · simp [h1]
  rcases h2 : env.runInstances with e | launchedId
  · simp [h1, h2]
  rcases h3 : env.waitRunning with e | u
  · simp [h1, h2, h3]
  rcases h4 : env.describeInst with e | ⟨pub, priv⟩
  · simp [h1, h2, h3, h4]
  · simp [h1, h2, h3, h4]

/-- C6, counterexample: with every step before the security-group creation
succeeding and that call failing, deploy returns None — a result that
reports no VPC or subnet id and no failure detail — refuting that the
returned deployment result carries the identifiers created before the
failure; the launch is indeed never attempted. -/
theorem c6_counterexample :
    (Scrypt.deployScrypt "O_1" none c6Env).1 = none ∧
      RemoteCall.aws .runInstances ∉ (Scrypt.deployScrypt "O_1" none c6Env).2 ∧
      RemoteCall.aws .createVpc ∈ (Scrypt.deployScrypt "O_1" none c6Env).2 ∧
      RemoteCall.aws .createSubnet ∈ (Scrypt.deployScrypt "O_1" none c6Env).2 := by
  decide

/-- C6, amended: when the security-group creation call fails after the
earlier infrastructure steps succeeded, no run_instances call is issued
and the VPC and subnet creation calls were issued — but deploy returns
None: the overall-failure result reports neither the created VPC/subnet
ids nor the specific failure (both are only logged). -/
theorem c6_amended (orgId nid vpcId igwId subnetId rtId : String)
    (env : Scrypt.ScryptEnv)
    (h1 : env.createVpc = .ok vpcId)
    (h2 : env.waitVpc = .ok ())
    (h3 : env.modifyVpcAttr1 = .ok ())
    (h4 : env.modifyVpcAttr2 = .ok ())
    (h5 : env.createIgw = .ok igwId)
    (h6 : env.attachIgw = .ok ())
    (h7 : env.createSubnet = .ok subnetId)
    (h8 : env.createRouteTable = .ok rtId)
    (h9 : env.createRoute = .ok ())
    (h10 : env.associateRouteTable = .ok ())
    (hsg : env.createSecurityGroup = .error ())
    (htok : env.tokenStatus = 201) :
    (Scrypt.deployScrypt orgId (some nid) env).1 = none ∧
      RemoteCall.aws .runInstances ∉ (Scrypt.deployScrypt orgId (some nid) env).2 ∧
      RemoteCall.aws .createVpc ∈ (Scrypt.deployScrypt orgId (some nid) env).2 ∧
      RemoteCall.aws .createSubnet ∈ (Scrypt.deployScrypt orgId (some nid) env).2 := by
  have hgen : Scrypt.generateVmxAuthenticationToken orgId (some nid) env =
      (some (env.token, nid),
       [.meraki (.postVmxAuthToken nid), .aws .ssmPutParameter]) := by
    rw [Scrypt.generateVmxAuthenticationToken.eq_def]
    simp [htok]
  have htr : Scrypt.createVpcInfrastructure env =
      (none,
       [.aws .createVpc, .aws .waitVpcAvailable, .aws .modifyVpcAttribute,
        .aws .modifyVpcAttribute, .aws .createInternetGateway,
        .aws .attachInternetGateway, .aws .createSubnet, .aws .createRouteTable,
        .aws .createRoute, .aws .associateRouteTable, .aws .createSecurityGroup]) := by
    rw [Scrypt.createVpcInfrastructure]
    simp [h1, h2, h3, h4, h5, h6, h7, h8, h9, h10, hsg]
  refine ⟨?_, ?_, ?_, ?_⟩ <;> simp [Scrypt.deployScrypt, hgen, htr]

/-- C6, witness for the amended theorem at the concrete C6 environment. -/
theorem c6_amended_witness :
    (Scrypt.deployScrypt "O_1" (some "N_500") c6Env).1 = none ∧
      RemoteCall.aws .runInstances ∉ (Scrypt.deployScrypt "O_1" (some "N_500") c6Env).2 ∧
      RemoteCall.aws .createVpc ∈ (Scrypt.deployScrypt "O_1" (some "N_500") c6Env).2 ∧
      RemoteCall.aws .createSubnet ∈ (Scrypt.deployScrypt "O_1" (some "N_500") c6Env).2 :=
  c6_amended "O_1" "N_500" "vpc-1" "igw-1" "subnet-1" "rtb-1" c6Env
    rfl rfl rfl rfl rfl rfl rfl rfl rfl rfl rfl rfl

/-- C7: the deployer never issues a terminate call: cleanup_on_failure
looks for the key "instance_id", but deploy records the launch under the
key "instance" — and on an instance-stage failure no instance key exists at
all — so for every environment the deploy trace holds no terminateInstances
call; in particular, in the concrete run where run_instances succeeded and
the instance-running waiter then failed, deploy returns None with the
launched instance leaked. -/
theorem c7_no_terminate :
    (∀ (orgId : String) (cfgNetworkId : Option String) (env : Scrypt.ScryptEnv)
      (iid : String),
      RemoteCall.aws (.terminateInstances iid) ∉
        (Scrypt.deployScrypt orgId cfgNetworkId env).2) ∧
    (Scrypt.deployScrypt "O_1" none c7Env).1 = none ∧
    RemoteCall.aws .runInstances ∈ (Scrypt.deployScrypt "O_1" none c7Env).2 := by
  refine ⟨?_, by decide, by decide⟩
  intro orgId cfg env iid
  rw [Scrypt.deployScrypt]
  rcases hg : (Scrypt.generateVmxAuthenticationToken orgId cfg env).1 with _ | tokNet
  · simp only [hg]
    exact Scrypt.gen_calls_no_terminate orgId cfg env iid
  · rcases hi : (Scrypt.createVpcInfrastructure env).1 with _ | infra
    · simp only [hg, hi]
      intro hmem
      rcases List.mem_append.mp hmem with h | h
      · exact Scrypt.gen_calls_no_terminate orgId cfg env iid h
      · exact Scrypt.infra_calls_no_terminate env iid h
    · rcases hins : (Scrypt.deployVmxInstance env).1 with _ | inst
      · simp only [hg, hi, hins]
        intro hmem
        have hcl : Scrypt.cleanupOnFailure
            ([("auth_token", Scrypt.ResVal.str tokNet.1),
              ("network_id", Scrypt.ResVal.str tokNet.2)] ++
             [("infrastructure", Scrypt.ResVal.infra infra)]) = [] := rfl
        rw [hcl, List.append_nil] at hmem
        rcases List.mem_append.mp hmem with h | h
        · rcases List.mem_append.mp h with h2 | h2
          · exact Scrypt.gen_calls_no_terminate orgId cfg env iid h2
          · exact Scrypt.infra_calls_no_terminate env iid h2
        · exact Scrypt.inst_calls_no_terminate env iid h
      · by_cases hs : env.summaryRaises = true
        · rcases hv : env.vmxDevice with _ | devSerial
          · simp only [hg, hi, hins, Scrypt.verifyVmxDeployment, hv, hs, if_true]
            intro hmem
            have hcl : Scrypt.cleanupOnFailure
                ((([("auth_token", Scrypt.ResVal.str tokNet.1),
                    ("network_id", Scrypt.ResVal.str tokNet.2)] ++
                   [("infrastructure", Scrypt.ResVal.infra infra)]) ++
                  [("instance", Scrypt.ResVal.inst inst.1 inst.2.1 inst.2.2)]) ++ []) = [] := rfl
            rw [hcl, List.append_nil] at hmem
            rcases List.mem_append.mp hmem with h | h
            · rcases List.mem_append.mp h with h2 | h2
              · rcases List.mem_append.mp h2 with h3 | h3
                · exact Scrypt.gen_calls_no_terminate orgId cfg env iid h3
                · exact Scrypt.infra_calls_no_terminate env iid h3
              · exact Scrypt.inst_calls_no_terminate env iid h2
            · simp at h
          · simp only [hg, hi, hins, Scrypt.verifyVmxDeployment, hv, hs, if_true]
            intro hmem
            have hcl : Scrypt.cleanupOnFailure
                ((([("auth_token", Scrypt.ResVal.str tokNet.1),
                    ("network_id", Scrypt.ResVal.str tokNet.2)] ++
                   [("infrastructure", Scrypt.ResVal.infra infra)]) ++
                  [("instance", Scrypt.ResVal.inst inst.1 inst.2.1 inst.2.2)]) ++
                 [("device", Scrypt.ResVal.dev devSerial)]) = [] := rfl
            rw [hcl, List.append_nil] at hmem
            rcases List.mem_append.mp hmem with h | h
            · rcases List.mem_append.mp h with h2 | h2
              · rcases List.mem_append.mp h2 with h3 | h3
                · exact Scrypt.gen_calls_no_terminate orgId cfg env iid h3
                · exact Scrypt.infra_calls_no_terminate env iid h3
              · exact Scrypt.inst_calls_no_terminate env iid h2
            · simp at h
        · simp only [hg, hi, hins, Scrypt.verifyVmxDeployment, hs, if_false,
            Bool.not_eq_true]
          intro hmem
          rcases List.mem_append.mp hmem with h | h
          · rcases List.mem_append.mp h with h2 | h2
            · rcases List.mem_append.mp h2 with h3 | h3
              · exact Scrypt.gen_calls_no_terminate orgId cfg env iid h3
              · exact Scrypt.infra_calls_no_terminate env iid h3
            · exact Scrypt.inst_calls_no_terminate env iid h2
          · simp at h

/-- C8: a configuration missing at least one required field makes both CLI
mains exit with code 1 before issuing any remote call (an empty trace of
network-management and cloud-infrastructure requests). -/
theorem c8_validation_before_calls :
    (∀ (cfgFields : List String) (orgId : String) (cfgNetworkId : Option String)
      (deviceSerials : Option (List String)) (env : July.JulyEnv),
      (∃ f ∈ July.requiredFieldsJuly, ¬ cfgFields.contains f) →
      July.mainJuly cfgFields orgId cfgNetworkId deviceSerials env = (1, [])) ∧
    (∀ (cfgFields : List String) (dryRun : Bool) (orgId : String)
      (cfgNetworkId : Option String) (env : Scrypt.ScryptEnv),
      (∃ f ∈ Scrypt.requiredFieldsScrypt, ¬ cfgFields.contains f) →
      Scrypt.mainScrypt cfgFields dryRun orgId cfgNetworkId env = (1, [])) := by
  constructor
  · rintro cfgFields orgId cfgNet ds env ⟨f, hf, hnc⟩
    have hs : (July.requiredFieldsJuly.find? (fun g => !(cfgFields.contains g))).isSome := by
      rw [List.find?_isSome]
      exact ⟨f, hf, by simpa using hnc⟩
    obtain ⟨g, hg⟩ := Option.isSome_iff_exists.mp hs
    simp only [July.mainJuly]
    rw [hg]
  · rintro cfgFields dryRun orgId cfgNet env ⟨f, hf, hnc⟩
    have hs : (Scrypt.requiredFieldsScrypt.find? (fun g => !(cfgFields.contains g))).isSome := by
      rw [List.find?_isSome]
      exact ⟨f, hf, by simpa using hnc⟩
    obtain ⟨g, hg⟩ := Option.isSome_iff_exists.mp hs
    simp only [Scrypt.mainScrypt]
    rw [hg]

/-- C8, witness: a config holding only meraki_api_key exits both mains
with code 1 and an empty call trace. -/
theorem c8_validation_before_calls_witness :
    (∃ f ∈ July.requiredFieldsJuly, ¬ (["meraki_api_key"] : List String).contains f) ∧
    July.mainJuly ["meraki_api_key"] "O_1" none none c8JulyEnv = (1, []) ∧
    Scrypt.mainScrypt ["meraki_api_key"] false "O_1" none okScryptEnv = (1, []) :=
  ⟨⟨"organization_id", by decide, by decide⟩,
   c8_validation_before_calls.1 ["meraki_api_key"] "O_1" none none c8JulyEnv
     ⟨"organization_id", by decide, by decide⟩,
   c8_validation_before_calls.2 ["meraki_api_key"] false "O_1" none okScryptEnv
     ⟨"organization_id", by decide, by decide⟩⟩

/-- C9: in the workinglocal variant, whenever the inventory lookup yields
at least one available device, deploy returns None — step 4 evaluates the
undefined attribute add_devices_to_network, whose AttributeError the
blanket handler turns into None — and a successful result is possible only
when the inventory lookup yields no available devices. -/
theorem c9_missing_method :
    (∀ (cfgNetworkId : Option String) (env : WL.WLEnv),
      WL.getOrganizationInventory env.inv ≠ [] →
      WL.deployWL cfgNetworkId env = none) ∧
    (∀ (cfgNetworkId : Option String) (env : WL.WLEnv) (keys : List String),
      WL.deployWL cfgNetworkId env = some keys →
      WL.getOrganizationInventory env.inv = []) := by
  have h1 : ∀ (cfg : Option String) (env : WL.WLEnv),
      WL.getOrganizationInventory env.inv ≠ [] → WL.deployWL cfg env = none := by
    intro cfg env hne
    rw [WL.deployWL.eq_def]
    cases cfg with
    | some nid =>
      simp [List.isEmpty_iff, hne, WL.addDevicesToNetworkCall]
    | none =>
      cases hc : WL.createNetworkWL env with
      | none => simp [hc]
      | some nid2 => simp [hc, List.isEmpty_iff, hne, WL.addDevicesToNetworkCall]
  refine ⟨h1, ?_⟩
  intro cfg env keys hk
  by_contra hne
  rw [h1 cfg env hne] at hk
  simp at hk

/-- C9, witness: with one available inventory device, the workinglocal
deploy returns None. -/
theorem c9_missing_method_witness :
    WL.getOrganizationInventory c9Env.inv ≠ [] ∧ WL.deployWL none c9Env = none :=
  ⟨by decide, c9_missing_method.1 none c9Env (by decide)⟩
